import Mathlib

/-
Verification of the command-translation layer of codex_server.py.

The development shallowly embeds the three operations of the server:
the command-line builder and subprocess wrapper `run_codex`, the tool
entry point `codex_agent` with its prompt optimizer, and the purely
informational `codex_interactive`.  File-system effects (temporary
image files) are modelled by an explicit state `FS`; the subprocess is
modelled by an oracle `List String → ProcOutcome` together with a
spawn counter in `World`.
-/

namespace CodexServer

/-- Bytes of a string, modelling Python str.encode().  Code points and
UTF-8 bytes agree on the ASCII inputs that occur in this development. -/
def strBytes (s : String) : List Nat :=
  s.toList.map Char.toNat

/-- Test whether the list `pre` is an initial segment of `l`. -/
def listIsPrefixOf : List Char → List Char → Bool
  | [], _ => true
  | _ :: _, [] => false
  | a :: as, b :: bs => a == b && listIsPrefixOf as bs

/-- Test whether `pat` occurs as a contiguous sublist of the second list. -/
def listContainsSub (pat : List Char) : List Char → Bool
  | [] => pat.isEmpty
  | c :: rest => listIsPrefixOf pat (c :: rest) || listContainsSub pat rest

/-- Model of Python str.startswith. -/
def strStartsWith (s pre : String) : Bool :=
  listIsPrefixOf pre.toList s.toList

/-- Model of the Python substring test `pat in s`. -/
def containsSubstr (s pat : String) : Bool :=
  listContainsSub pat.toList s.toList

/-- Model of Python s.split(",", 1): the part before the first comma and
the part after it (the whole string and "" when there is no comma). -/
def splitFirstComma (s : String) : String × String :=
  (String.mk (s.toList.takeWhile (fun c => c ≠ ',')),
   String.mk ((s.toList.dropWhile (fun c => c ≠ ',')).drop 1))

/-- Value of a base64 alphabet character, none for characters outside
the alphabet (which Python b64decode discards before decoding). -/
def b64Val (c : Char) : Option Nat :=
  if 'A' ≤ c ∧ c ≤ 'Z' then some (c.toNat - 65)
  else if 'a' ≤ c ∧ c ≤ 'z' then some (c.toNat - 97 + 26)
  else if '0' ≤ c ∧ c ≤ '9' then some (c.toNat - 48 + 52)
  else if c = '+' then some 62
  else if c = '/' then some 63
  else none

/-- Regroup 6-bit values into 8-bit bytes, four sextets to three bytes,
with the usual truncated final group. -/
def sextetsToBytes : List Nat → List Nat
  | a :: b :: c :: d :: rest =>
      (a * 4 + b / 16) :: ((b % 16) * 16 + c / 4) :: ((c % 4) * 64 + d)
        :: sextetsToBytes rest
  | [a, b] => [a * 4 + b / 16]
  | [a, b, c] => [a * 4 + b / 16, (b % 16) * 16 + c / 4]
  | _ => []

/-- Model of Python base64.b64decode on well-formed input: characters
outside the alphabet (including the padding =) are discarded, the
remaining sextets are regrouped into bytes. -/
def b64decode (s : String) : List Nat :=
  sextetsToBytes
    ((s.toList.filter (fun c => (b64Val c).isSome)).map
      (fun c => (b64Val c).getD 0))

/-- State of the temporary-file system: a counter for fresh names and
the list of files created so far, each with its byte contents. -/
structure FS where
  counter : Nat
  files : List (String × List Nat)
  deriving DecidableEq

/-- Fresh name of the n-th temporary file, modelling the unique names
produced by tempfile.NamedTemporaryFile(delete=False, suffix=".png"). -/
def tempName (n : Nat) : String :=
  "/tmp/codeximg" ++ toString n ++ ".png"

/-- World state threaded through the operations: the temp-file system
and a counter of subprocess launches (consultations of the oracle). -/
structure World where
  fs : FS
  spawnCount : Nat
  deriving DecidableEq

/-- Outcome of attempting to run the external command: either the child
exited with a code and captured stdout/stderr, or the launch itself
failed with an exception message. -/
inductive ProcOutcome where
  | exited (code : Int) (stdout stderr : String)
  | launchFailure (msg : String)
  deriving DecidableEq

/-- Result dictionary returned by run_codex and codex_agent; absent
dictionary keys are modelled by none. -/
structure ExecResult where
  status : String
  output : Option String
  error : Option String
  stderr : Option String
  exit_code : Option Int
  command : Option String
  deriving DecidableEq

/-- Image resolution for one entry of the images list, from the body of
the for-loop in run_codex (codex_server.py lines 66-82): a data URI
with a base64 marker is decoded after the first comma and written to a
fresh temp file; any other data URI is written to a fresh temp file
as-is (the encoded bytes of the whole string); anything else is used
as a path unchanged. -/
def resolveOneImage (fs : FS) (image_path : String) : FS × String :=
  if strStartsWith image_path "data:" then
    let path := tempName fs.counter
    if containsSubstr image_path "base64," then
      let encoded := (splitFirstComma image_path).2
      let image_data := b64decode encoded
      ({ counter := fs.counter + 1, files := fs.files ++ [(path, image_data)] }, path)
    else
      ({ counter := fs.counter + 1, files := fs.files ++ [(path, strBytes image_path)] }, path)
  else
    (fs, image_path)

/-- Resolve a list of images in order, threading the file system. -/
def resolveImages (fs : FS) : List String → FS × List String
  | [] => (fs, [])
  | p :: ps =>
      let r := resolveOneImage fs p
      let rs := resolveImages r.1 ps
      (rs.1, r.2 :: rs.2)

/-- Command-vector construction of run_codex (codex_server.py lines
47-88), with the images already resolved to paths.  Mirrors the
sequence of appends in the source, including the Python truthiness
tests `if model:`, `if provider:` and `if approval_mode and
approval_mode != "suggest":`. -/
def buildCmd (prompt : String) (model : Option String) (resolvedImages : List String)
    (approval_mode : String) (quiet : Bool) (json_output : Bool)
    (provider : Option String) (additional_args : List String) : List String :=
  let cmd := ["codex"]
  let cmd := if quiet then cmd ++ ["--quiet"] else cmd
  let cmd := if json_output then cmd ++ ["--json"] else cmd
  let cmd := match model with
    | none => cmd
    | some m => if m = "" then cmd else cmd ++ ["--model", m]
  let cmd := match provider with
    | none => cmd
    | some s => if s = "" then cmd else cmd ++ ["--provider", s]
  let cmd := if approval_mode ≠ "" ∧ approval_mode ≠ "suggest"
    then cmd ++ ["--approval-mode", approval_mode] else cmd
  let cmd := cmd ++ resolvedImages.flatMap (fun p => ["--image", p])
  let cmd := cmd ++ additional_args
  cmd ++ [prompt]

/-- String form of subprocess.CalledProcessError, used as the error
field on a non-zero exit. -/
def calledProcessErrorStr (cmd : List String) (returncode : Int) : String :=
  "Command " ++ toString cmd ++ " returned non-zero exit status "
    ++ toString returncode ++ "."

/-- run_codex (codex_server.py lines 24-126): resolve the images, build
the command, launch it once (incrementing the spawn counter) and map
the outcome to the result dictionary of the try/except blocks. -/
def run_codex (oracle : List String → ProcOutcome) (w : World)
    (prompt : String) (model : Option String) (images : List String)
    (approval_mode : String) (quiet : Bool) (json_output : Bool)
    (provider : Option String) (additional_args : List String) : World × ExecResult :=
  let rp := resolveImages w.fs images
  let cmd := buildCmd prompt model rp.2 approval_mode quiet json_output provider additional_args
  let w1 : World := { fs := rp.1, spawnCount := w.spawnCount + 1 }
  match oracle cmd with
  | ProcOutcome.exited code out err =>
      if code = 0 then
        (w1, { status := "success", output := some out.trim, error := none,
               stderr := some err, exit_code := none,
               command := some (String.intercalate " " cmd) })
      else
        (w1, { status := "error", error := some (calledProcessErrorStr cmd code),
               output := some out, stderr := some err, exit_code := some code,
               command := some (String.intercalate " " cmd) })
  | ProcOutcome.launchFailure msg =>
      (w1, { status := "error", error := some msg, output := none, stderr := none,
             exit_code := none, command := some (String.intercalate " " cmd) })

/-- Task-category table of _optimize_prompt_for_task (codex_server.py
lines 212-223), including the .get default "" for unknown categories. -/
def task_prefixes (task_type : String) : String :=
  if task_type = "code-generation" then
    "Generate clean, well-documented code for the following task:\n\n"
  else if task_type = "code-explanation" then
    "Provide a detailed explanation of the following code, including what it does, how it works, and any notable patterns:\n\n"
  else if task_type = "debugging" then
    "Analyze the following code/issue for bugs, explain the problems found, and provide fixes:\n\n"
  else if task_type = "refactoring" then
    "Refactor the following code to improve readability, performance, and maintainability:\n\n"
  else if task_type = "testing" then
    "Write comprehensive tests for the following code or fix existing test issues:\n\n"
  else if task_type = "security" then
    "Perform a security analysis of the following code, identify vulnerabilities, and suggest fixes:\n\n"
  else if task_type = "documentation" then
    "Generate or improve documentation for the following code:\n\n"
  else if task_type = "general" then ""
  else ""

/-- Source function _optimize_prompt_for_task (codex_server.py lines
208-224): prepend the category text to the prompt. -/
def optimize_prompt_for_task (prompt : String) (task_type : String) : String :=
  task_prefixes task_type ++ prompt

/-- Tool entry point codex_agent (codex_server.py lines 129-205):
reject an empty prompt without touching the world, otherwise optimize
the prompt and delegate to run_codex with quiet=True. -/
def codex_agent (oracle : List String → ProcOutcome) (w : World)
    (prompt : String) (model : String) (approval_mode : String)
    (images : Option (List String)) (provider : Option String)
    (json_output : Bool) (task_type : String)
    (additional_args : Option (List String)) : World × ExecResult :=
  if prompt = "" then
    (w, { status := "error", error := some "Missing required parameter: prompt",
          output := none, stderr := none, exit_code := none, command := none })
  else
    let optimized_prompt := optimize_prompt_for_task prompt task_type
    run_codex oracle w optimized_prompt (some model) (images.getD [])
      approval_mode true json_output provider (additional_args.getD [])

/-- Result dictionary of codex_interactive. -/
structure InteractiveInfo where
  status : String
  message : String
  command : String
  note : String
  instructions : List String
  deriving DecidableEq

/-- Command vector built by codex_interactive (codex_server.py lines
252-264), with the same Python truthiness tests as run_codex. -/
def interactiveCmd (initial_prompt : Option String) (model : String)
    (approval_mode : String) (provider : Option String) : List String :=
  let cmd := ["codex"]
  let cmd := if model = "" then cmd else cmd ++ ["--model", model]
  let cmd := match provider with
    | none => cmd
    | some s => if s = "" then cmd else cmd ++ ["--provider", s]
  let cmd := if approval_mode ≠ "" ∧ approval_mode ≠ "suggest"
    then cmd ++ ["--approval-mode", approval_mode] else cmd
  match initial_prompt with
  | none => cmd
  | some p => if p = "" then cmd else cmd ++ [p]

/-- Tool entry point codex_interactive (codex_server.py lines 227-276):
builds the command string and returns static guidance; it performs no
effect, so the world is returned unchanged. -/
def codex_interactive (w : World) (initial_prompt : Option String)
    (model : String) (approval_mode : String)
    (provider : Option String) : World × InteractiveInfo :=
  (w, { status := "info",
        message := "Interactive Codex session would be started with the following command:",
        command := String.intercalate " "
          (interactiveCmd initial_prompt model approval_mode provider),
        note := "This requires terminal access. For automated tasks, use codex_agent instead.",
        instructions :=
          ["Run this command in your terminal to start the interactive session",
           "Type exit or press Ctrl+C to end the session",
           "Use different approval modes for varying levels of autonomy"] })

/-- Closed form of buildCmd used while proving the ordering claims. -/
theorem buildCmd_eq (prompt : String) (model provider : Option String)
    (resolvedImages : List String) (approval_mode : String)
    (quiet json_output : Bool) (additional_args : List String) :
    buildCmd prompt model resolvedImages approval_mode quiet json_output provider additional_args
      = ["codex"]
        ++ (if quiet then ["--quiet"] else [])
        ++ (if json_output then ["--json"] else [])
        ++ (match model with
            | none => []
            | some m => if m = "" then [] else ["--model", m])
        ++ (match provider with
            | none => []
            | some s => if s = "" then [] else ["--provider", s])
        ++ (if approval_mode ≠ "" ∧ approval_mode ≠ "suggest"
            then ["--approval-mode", approval_mode] else [])
        ++ resolvedImages.flatMap (fun p => ["--image", p])
        ++ additional_args
        ++ [prompt] := by
  unfold buildCmd
  cases model <;> cases provider <;> split_ifs <;> simp_all [List.append_assoc] <;> split_ifs <;> simp_all [List.append_assoc]

/-- Closed form of interactiveCmd used while proving the ordering claims. -/
theorem interactiveCmd_eq (initial_prompt : Option String)
    (model approval_mode : String) (provider : Option String) :
    interactiveCmd initial_prompt model approval_mode provider
      = ["codex"]
        ++ (if model = "" then [] else ["--model", model])
        ++ (match provider with
            | none => []
            | some s => if s = "" then [] else ["--provider", s])
        ++ (if approval_mode ≠ "" ∧ approval_mode ≠ "suggest"
            then ["--approval-mode", approval_mode] else [])
        ++ (match initial_prompt with
            | none => []
            | some p => if p = "" then [] else [p]) := by
  unfold interactiveCmd
  cases initial_prompt <;> cases provider <;> split_ifs <;> simp_all [List.append_assoc] <;> split_ifs <;> simp_all [List.append_assoc]
/-- C1: codex_agent on an empty prompt returns the fixed
missing-parameter failure with no command field, and leaves the world,
including its spawn counter, unchanged for every oracle. -/
theorem codex_agent_empty_prompt (oracle : List String → ProcOutcome) (w : World)
    (model approval_mode : String) (images : Option (List String))
    (provider : Option String) (json_output : Bool) (task_type : String)
    (additional_args : Option (List String)) :
    codex_agent oracle w "" model approval_mode images provider json_output
        task_type additional_args
      = (w, { status := "error", error := some "Missing required parameter: prompt",
              output := none, stderr := none, exit_code := none, command := none }) := rfl

/-- C2: run_codex succeeds exactly when the child exits 0, returning the
trimmed stdout, the raw stderr and the joined argv; a non-zero exit code
yields the error dictionary carrying that exit code and the captured
output; a launch failure yields an error dictionary with the exception
message and without exit_code or output fields. -/
theorem run_codex_execute_spec (oracle : List String → ProcOutcome) (w : World)
    (prompt : String) (model : Option String) (images : List String)
    (approval_mode : String) (quiet json_output : Bool) (provider : Option String)
    (additional_args : List String) (cmd : List String)
    (hcmd : cmd = buildCmd prompt model (resolveImages w.fs images).2 approval_mode
      quiet json_output provider additional_args) :
    ((run_codex oracle w prompt model images approval_mode quiet json_output provider
          additional_args).2.status = "success"
      ↔ ∃ out err, oracle cmd = ProcOutcome.exited 0 out err) ∧
    (∀ out err, oracle cmd = ProcOutcome.exited 0 out err →
      (run_codex oracle w prompt model images approval_mode quiet json_output provider
          additional_args).2
        = { status := "success", output := some out.trim, error := none,
            stderr := some err, exit_code := none,
            command := some (String.intercalate " " cmd) }) ∧
    (∀ code out err, oracle cmd = ProcOutcome.exited code out err → code ≠ 0 →
      (run_codex oracle w prompt model images approval_mode quiet json_output provider
          additional_args).2
        = { status := "error", error := some (calledProcessErrorStr cmd code),
            output := some out, stderr := some err, exit_code := some code,
            command := some (String.intercalate " " cmd) }) ∧
    (∀ msg, oracle cmd = ProcOutcome.launchFailure msg →
      (run_codex oracle w prompt model images approval_mode quiet json_output provider
          additional_args).2
        = { status := "error", error := some msg, output := none, stderr := none,
            exit_code := none, command := some (String.intercalate " " cmd) }) := by
  subst hcmd
  cases h : oracle (buildCmd prompt model (resolveImages w.fs images).2 approval_mode
      quiet json_output provider additional_args) with
  | exited code out err =>
      by_cases hc : code = 0
      · subst hc
        refine ⟨?_, ?_, ?_, ?_⟩
        · simp [run_codex, h]
        · intro out1 err1 h1
          cases h1
          simp [run_codex, h]
        · intro code1 out1 err1 h1 hne
          cases h1
          exact absurd rfl hne
        · intro msg h1
          cases h1
      · refine ⟨?_, ?_, ?_, ?_⟩
        · simp [run_codex, h, hc]
        · intro out1 err1 h1
          cases h1
          exact absurd rfl hc
        · intro code1 out1 err1 h1 hne
          cases h1
          simp [run_codex, h, hc]
        · intro msg h1
          cases h1
  | launchFailure msg =>
      refine ⟨?_, ?_, ?_, ?_⟩
      · simp [run_codex, h]
      · intro out1 err1 h1
        cases h1
      · intro code1 out1 err1 h1 hne
        cases h1
      · intro msg1 h1
        cases h1
        simp [run_codex, h]

/-- Witness for run_codex_execute_spec: an oracle whose child exits 0
printing ok yields a success result. -/
theorem run_codex_execute_spec_witness :
    (run_codex (fun _ => ProcOutcome.exited 0 "ok" "") ⟨⟨0, []⟩, 0⟩ "p" none []
        "suggest" true false none []).2.status = "success" := by
  have h := run_codex_execute_spec (fun _ => ProcOutcome.exited 0 "ok" "")
    ⟨⟨0, []⟩, 0⟩ "p" none [] "suggest" true false none []
    (buildCmd "p" none (resolveImages (⟨⟨0, []⟩, 0⟩ : World).fs []).2 "suggest" true
      false none []) rfl
  exact h.1.mpr ⟨"ok", "", rfl⟩

/-- C3: buildCmd emits the argument vector in the fixed documented
order: executable, quiet flag, json flag, model, provider, approval
mode only when it differs from the default, one image flag per resolved
image in order, the extra arguments verbatim, and the prompt as the
final positional argument. -/
theorem buildCmd_order (prompt : String) (model provider : Option String)
    (resolvedImages : List String) (approval_mode : String)
    (quiet json_output : Bool) (additional_args : List String) :
    buildCmd prompt model resolvedImages approval_mode quiet json_output provider additional_args
      = ["codex"]
        ++ (if quiet then ["--quiet"] else [])
        ++ (if json_output then ["--json"] else [])
        ++ (match model with
            | none => []
            | some m => if m = "" then [] else ["--model", m])
        ++ (match provider with
            | none => []
            | some s => if s = "" then [] else ["--provider", s])
        ++ (if approval_mode ≠ "" ∧ approval_mode ≠ "suggest"
            then ["--approval-mode", approval_mode] else [])
        ++ resolvedImages.flatMap (fun p => ["--image", p])
        ++ additional_args
        ++ [prompt] :=
  buildCmd_eq prompt model provider resolvedImages approval_mode quiet json_output additional_args

/-- C4: optimize_prompt_for_task only prepends the category text, so the
original prompt is always a suffix of the result; the general category
and every unrecognized category leave the prompt unchanged. -/
theorem optimize_prompt_spec (p t : String) :
    (∃ pre, optimize_prompt_for_task p t = pre ++ p) ∧
    optimize_prompt_for_task p "general" = p ∧
    (t ∉ ["code-generation", "code-explanation", "debugging", "refactoring",
          "testing", "security", "documentation", "general"] →
      optimize_prompt_for_task p t = p) := by
  refine ⟨⟨task_prefixes t, rfl⟩, rfl, ?_⟩
  intro h
  simp only [List.mem_cons, List.not_mem_nil, or_false, not_or] at h
  obtain ⟨h1, h2, h3, h4, h5, h6, h7, h8⟩ := h
  show task_prefixes t ++ p = p
  rw [task_prefixes]
  simp [h1, h2, h3, h4, h5, h6, h7, h8]
/-- Witness for optimize_prompt_spec at an unrecognized category. -/
theorem optimize_prompt_spec_witness :
    optimize_prompt_for_task "x" "zzz" = "x" :=
  (optimize_prompt_spec "x" "zzz").2.2 (by decide)

/-- C5 counterexample: the empty approval mode differs from suggest, yet
the built command omits the flag instead of passing the value through. -/
theorem approval_mode_empty_counterexample :
    ("" : String) ≠ "suggest" ∧
    "--approval-mode" ∉ buildCmd "p" none [] "" true false none [] := by decide

/-- C5 (amended): with approval mode suggest the command equals the
flag-free form, and any other non-empty approval mode puts
--approval-mode directly followed by that value into the command. -/
theorem approval_mode_flag_spec (prompt : String) (model provider : Option String)
    (resolvedImages : List String) (quiet json_output : Bool)
    (additional_args : List String) (approval_mode : String) :
    (approval_mode = "suggest" →
      buildCmd prompt model resolvedImages approval_mode quiet json_output provider additional_args
        = ["codex"]
          ++ (if quiet then ["--quiet"] else [])
          ++ (if json_output then ["--json"] else [])
          ++ (match model with
              | none => []
              | some m => if m = "" then [] else ["--model", m])
          ++ (match provider with
              | none => []
              | some s => if s = "" then [] else ["--provider", s])
          ++ resolvedImages.flatMap (fun p => ["--image", p])
          ++ additional_args
          ++ [prompt]) ∧
    (approval_mode ≠ "suggest" → approval_mode ≠ "" →
      ∃ l1 l2, buildCmd prompt model resolvedImages approval_mode quiet json_output
          provider additional_args
        = l1 ++ ["--approval-mode", approval_mode] ++ l2) := by
  constructor
  · intro hs
    subst hs
    rw [buildCmd_eq]
    simp
  · intro h1 h2
    rw [buildCmd_eq]
    refine ⟨["codex"]
      ++ (if quiet then ["--quiet"] else [])
      ++ (if json_output then ["--json"] else [])
      ++ (match model with
          | none => []
          | some m => if m = "" then [] else ["--model", m])
      ++ (match provider with
          | none => []
          | some s => if s = "" then [] else ["--provider", s]),
      resolvedImages.flatMap (fun p => ["--image", p]) ++ additional_args ++ [prompt], ?_⟩
    simp [h1, h2, List.append_assoc]

/-- Witness for approval_mode_flag_spec at the modes suggest and
full-auto. -/
theorem approval_mode_flag_spec_witness :
    buildCmd "p" none [] "suggest" true false none [] = ["codex", "--quiet", "p"] ∧
    (∃ l1 l2, buildCmd "p" none [] "full-auto" true false none []
      = l1 ++ ["--approval-mode", "full-auto"] ++ l2) := by
  constructor
  · have h := (approval_mode_flag_spec "p" none none [] true false [] "suggest").1 rfl
    simpa using h
  · exact (approval_mode_flag_spec "p" none none [] true false [] "full-auto").2
      (by decide) (by decide)

/-- C6: resolving the single image data:image/png;base64,QUJD creates
exactly one new temp file holding the decoded bytes 65 66 67 (the ASCII
bytes of ABC), and the built command contains --image directly followed
by that temp file path. -/
theorem data_uri_base64_image :
    resolveImages { counter := 0, files := [] } ["data:image/png;base64,QUJD"]
      = ({ counter := 1, files := [(tempName 0, [65, 66, 67])] }, [tempName 0]) ∧
    buildCmd "p" none
        (resolveImages { counter := 0, files := [] } ["data:image/png;base64,QUJD"]).2
        "suggest" true false none []
      = ["codex", "--quiet", "--image", tempName 0, "p"] := by decide

/-- C7 counterexample: for the data URI data:xyz without a base64
marker, the temp file receives the bytes of the whole string data:xyz,
which differ from the bytes of the remainder xyz after the header. -/
theorem data_uri_raw_counterexample :
    resolveOneImage { counter := 0, files := [] } "data:xyz"
      = ({ counter := 1, files := [(tempName 0, strBytes "data:xyz")] }, tempName 0) ∧
    strBytes "data:xyz" ≠ strBytes "xyz" := by decide

/-- C7 (amended): for a data URI without the base64 marker, image
resolution writes the bytes of the entire URI string, data: header
included, to a new temp file and uses that file path. -/
theorem data_uri_raw_spec (fs : FS) (s : String)
    (h1 : strStartsWith s "data:" = true)
    (h2 : containsSubstr s "base64," = false) :
    resolveOneImage fs s
      = ({ counter := fs.counter + 1,
           files := fs.files ++ [(tempName fs.counter, strBytes s)] },
         tempName fs.counter) := by
  simp [resolveOneImage, h1, h2]

/-- Witness for data_uri_raw_spec at the URI data:xyz. -/
theorem data_uri_raw_spec_witness :
    resolveOneImage { counter := 3, files := [] } "data:xyz"
      = ({ counter := 4, files := [(tempName 3, strBytes "data:xyz")] }, tempName 3) :=
  data_uri_raw_spec { counter := 3, files := [] } "data:xyz" (by decide) (by decide)

/-- C8: an images entry that does not start with data: is passed through
unchanged with no temp file created, and the built command contains
--image directly followed by that entry verbatim. -/
theorem plain_path_image_spec (fs : FS) (s prompt : String)
    (model provider : Option String) (approval_mode : String)
    (quiet json_output : Bool) (additional_args : List String)
    (h : strStartsWith s "data:" = false) :
    resolveImages fs [s] = (fs, [s]) ∧
    ∃ l1 l2, buildCmd prompt model (resolveImages fs [s]).2 approval_mode quiet
        json_output provider additional_args = l1 ++ ["--image", s] ++ l2 := by
  have hr : resolveOneImage fs s = (fs, s) := by
    simp [resolveOneImage, h]
  have hs : resolveImages fs [s] = (fs, [s]) := by
    simp [resolveImages, hr]
  refine ⟨hs, ?_⟩
  rw [hs]
  rw [buildCmd_eq]
  refine ⟨["codex"]
    ++ (if quiet then ["--quiet"] else [])
    ++ (if json_output then ["--json"] else [])
    ++ (match model with
        | none => []
        | some m => if m = "" then [] else ["--model", m])
    ++ (match provider with
        | none => []
        | some pv => if pv = "" then [] else ["--provider", pv])
    ++ (if approval_mode ≠ "" ∧ approval_mode ≠ "suggest"
        then ["--approval-mode", approval_mode] else []),
    additional_args ++ [prompt], ?_⟩
  simp [List.append_assoc]

/-- Witness for plain_path_image_spec at the path design.png. -/
theorem plain_path_image_spec_witness :
    resolveImages { counter := 0, files := [] } ["design.png"]
      = ({ counter := 0, files := [] }, ["design.png"]) ∧
    ∃ l1 l2, buildCmd "p" none
        (resolveImages { counter := 0, files := [] } ["design.png"]).2
        "suggest" true false none [] = l1 ++ ["--image", "design.png"] ++ l2 :=
  plain_path_image_spec { counter := 0, files := [] } "design.png" "p" none none
    "suggest" true false [] (by decide)

/-- C9: codex_interactive never spawns a process: for every input the
world, including its spawn counter, is returned unchanged, and the
result only carries the would-be command line and static guidance. -/
theorem interactive_no_spawn (w : World) (initial_prompt : Option String)
    (model approval_mode : String) (provider : Option String) :
    (codex_interactive w initial_prompt model approval_mode provider).1 = w ∧
    (codex_interactive w initial_prompt model approval_mode provider).2.status = "info" ∧
    (codex_interactive w initial_prompt model approval_mode provider).2.command
      = String.intercalate " " (interactiveCmd initial_prompt model approval_mode provider) ∧
    (codex_interactive w initial_prompt model approval_mode provider).2.message
      = "Interactive Codex session would be started with the following command:" :=
  ⟨rfl, rfl, rfl, rfl⟩

/-- C10: the empty approval mode, a value outside the documented enum,
behaves exactly like the default suggest: the agent command and the
interactive command both equal their suggest versions and omit the
--approval-mode flag. -/
theorem empty_approval_mode_spec (prompt : String) (model provider : Option String)
    (resolvedImages : List String) (quiet json_output : Bool)
    (additional_args : List String) (initial_prompt : Option String)
    (imodel : String) (iprovider : Option String) :
    buildCmd prompt model resolvedImages "" quiet json_output provider additional_args
      = buildCmd prompt model resolvedImages "suggest" quiet json_output provider
          additional_args ∧
    buildCmd prompt model resolvedImages "" quiet json_output provider additional_args
      = ["codex"]
        ++ (if quiet then ["--quiet"] else [])
        ++ (if json_output then ["--json"] else [])
        ++ (match model with
            | none => []
            | some m => if m = "" then [] else ["--model", m])
        ++ (match provider with
            | none => []
            | some s => if s = "" then [] else ["--provider", s])
        ++ resolvedImages.flatMap (fun p => ["--image", p])
        ++ additional_args
        ++ [prompt] ∧
    interactiveCmd initial_prompt imodel "" iprovider
      = interactiveCmd initial_prompt imodel "suggest" iprovider ∧
    interactiveCmd initial_prompt imodel "" iprovider
      = ["codex"]
        ++ (if imodel = "" then [] else ["--model", imodel])
        ++ (match iprovider with
            | none => []
            | some s => if s = "" then [] else ["--provider", s])
        ++ (match initial_prompt with
            | none => []
            | some p => if p = "" then [] else [p]) := by
  refine ⟨?_, ?_, ?_, ?_⟩
  · rw [buildCmd_eq, buildCmd_eq]
    simp
  · rw [buildCmd_eq]
    simp
  · rw [interactiveCmd_eq, interactiveCmd_eq]
    simp
  · rw [interactiveCmd_eq]
    simp
end CodexServer
